import Mathlib

/-!
# Verification of the konditionner condition-set library

Shallow embedding of `pkg/konditions` (condition.go, mutations.go, the
finders file, and the advisory-lock file) from the konditionner repository,
together with theorems settling the specification claims about it.

Modelling decisions:
* `meta.Time` is modelled as `Nat`; `0` is the zero time (`IsZero`), and
  every call of `meta.NewTime(time.Now())` inside one operation is the
  explicit parameter `now`.
* A Go `*Conditions` receiver is modelled as `Option Conditions`:
  `none` is the nil pointer, `some cs` a pointer to the slice `cs`.
* Go errors are modelled by their text (`Err := String`); the sentinel
  `LockNotReleasedErr` is its message string.
* `FindType` returns `c[i].DeepCopy()` in the source, i.e. a pointer to a
  fresh copy, never a pointer into the slice.  The embedding returns
  `Option Condition` (a value), and `SetCondition`'s update branch writes
  into that copied value and then drops it, exactly as the Go code's writes
  through the copied pointer are never visible in the slice.
-/

/-- Go `ConditionType`: a user-extendable string type. -/
abbrev ConditionType := String

/-- Go `ConditionStatus`: a user-extendable string type. -/
abbrev ConditionStatus := String

/-- condition.go: `ConditionInitialized ConditionStatus = "Initialized"`. -/
def ConditionInitialized : ConditionStatus := "Initialized"

/-- condition.go: `ConditionCompleted ConditionStatus = "Completed"`. -/
def ConditionCompleted : ConditionStatus := "Completed"

/-- condition.go: `ConditionCreated ConditionStatus = "Created"`. -/
def ConditionCreated : ConditionStatus := "Created"

/-- condition.go: `ConditionTerminating ConditionStatus = "Terminating"`. -/
def ConditionTerminating : ConditionStatus := "Terminating"

/-- condition.go: `ConditionTerminated ConditionStatus = "Terminated"`. -/
def ConditionTerminated : ConditionStatus := "Terminated"

/-- condition.go: `ConditionError ConditionStatus = "Error"`. -/
def ConditionError : ConditionStatus := "Error"

/-- condition.go: `ConditionLocked ConditionStatus = "Locked"`. -/
def ConditionLocked : ConditionStatus := "Locked"

/-- condition.go `Condition`: one named state record.  Field names follow the
Go struct (`Type` becomes `type`, lower-cased, since `Type` is reserved). -/
structure Condition where
  type : ConditionType
  status : ConditionStatus
  lastTransitionTime : Nat
  reason : String
deriving DecidableEq, Repr

/-- condition.go `Conditions`: an ordered slice of `Condition`. -/
abbrev Conditions := List Condition

/-- Finders file, `FindType`: first condition whose `Type` matches, as a
deep copy (`c[i].DeepCopy()`), or nil.  Value semantics of `Option Condition`
model the copy. -/
def Conditions.FindType (c : Conditions) (conditionType : ConditionType) : Option Condition :=
  c.find? (fun cond => cond.type == conditionType)

/-- Finders file, `FindStatus`: deep copy of the first condition whose
`Status` matches, or nil. -/
def Conditions.FindStatus (c : Conditions) (conditionStatus : ConditionStatus) : Option Condition :=
  c.find? (fun cond => cond.status == conditionStatus)

/-- Finders file, `FindOrInitializeFor`: the existing condition for the type
(as a copy) when present, else a fresh `Condition{Type: ct, Status:
ConditionInitialized}` whose remaining fields are Go zero values. -/
def Conditions.FindOrInitializeFor (c : Conditions) (ct : ConditionType) : Condition :=
  match c.FindType ct with
  | some condition => condition
  | none => { type := ct, status := ConditionInitialized, lastTransitionTime := 0, reason := "" }

/-- Finders file, `TypeHasStatus`: whether the condition with the given type
exists and carries the given status. -/
def Conditions.TypeHasStatus (c : Conditions) (conditionType : ConditionType)
    (status : ConditionStatus) : Bool :=
  match c.FindType conditionType with
  | some condition => condition.status == status
  | none => false

/-- mutations.go `SetCondition` on a `*Conditions` receiver.
Returns the `changed` flag and the state of the set after the call.

The source first handles the nil receiver, then calls `FindType` (which
returns a pointer to a DEEP COPY).  When no entry exists the new condition is
appended, defaulting `LastTransitionTime` to now when zero.  When an entry
exists, the source assigns `Status`/`LastTransitionTime`/`Reason` through the
copied pointer `existingCondition`; those writes land in the copy, so the
slice itself is returned unchanged, while `changed` still reports the
comparisons. -/
def SetCondition (c : Option Conditions) (newCondition : Condition) (now : Nat) :
    Bool × Option Conditions :=
  match c with
  | none => (false, none)
  | some cs =>
    match cs.FindType newCondition.type with
    | none =>
      let appended :=
        if newCondition.lastTransitionTime == 0 then
          { newCondition with lastTransitionTime := now }
        else
          newCondition
      (true, some (cs ++ [appended]))
    | some existingCondition =>
      let afterStatus :=
        if existingCondition.status != newCondition.status then
          ({ existingCondition with
              status := newCondition.status,
              lastTransitionTime :=
                if newCondition.lastTransitionTime != 0 then
                  newCondition.lastTransitionTime
                else
                  now }, true)
        else
          (existingCondition, false)
      let afterReason :=
        if afterStatus.1.reason != newCondition.reason then
          ({ afterStatus.1 with reason := newCondition.reason }, true)
        else
          afterStatus
      (afterReason.2, some cs)

/-- mutations.go `RemoveConditionWith` on a `*Conditions` receiver.
Returns the `removed` flag and the state of the set after the call.
Nil or empty receiver: no-op returning false.  Otherwise the slice is rebuilt
keeping every condition whose type differs, and `removed` compares the
lengths. -/
def RemoveConditionWith (c : Option Conditions) (conditionType : ConditionType) :
    Bool × Option Conditions :=
  match c with
  | none => (false, none)
  | some cs =>
    if cs.length == 0 then
      (false, some cs)
    else
      let newConditions := cs.filter (fun condition => condition.type != conditionType)
      (decide (cs.length ≠ newConditions.length), some newConditions)

/-- Go errors modelled by their text. -/
abbrev Err := String

/-- Lock file: `LockNotReleasedErr = errors.New(...)`, modelled by its
message. -/
def LockNotReleasedErr : Err :=
  "Condition still locked after task executed. The task needs to set the condition status before returning"

/-- A `Task` receives the lock's snapshot condition and, through its closure
over the resource, may rewrite the live `Conditions` set; it returns the new
set and an optional error.  (A task's own store writes are outside this
core.) -/
abbrev LockTask := Condition → Conditions → Conditions × Option Err

/-- Result of one `Execute` call: the returned error (none on success) and
the final in-memory set, or the nil-pointer panic at the post-task
`FindType` dereference (`c.Status` with `c == nil`). -/
inductive ExecResult where
  | ok : Option Err → Conditions → ExecResult
  | nilDeref : Conditions → ExecResult
deriving DecidableEq, Repr

/-- Lock file `NewLock`: the snapshot condition the lock stores at
construction, `obj.Conditions().FindOrInitializeFor(ct)`. -/
def NewLockCondition (obj : Conditions) (ct : ConditionType) : Condition :=
  obj.FindOrInitializeFor ct

/-- Lock file `Execute`, for a lock whose resource's live set is `obj`
(a non-nil `*Conditions`) and whose stored snapshot is `cond`.
`persist1`/`persist2` are the outcomes of the two `client.Status().Update`
calls (`none` = success).  Following the source line by line:
upsert `{Type, Locked, "Resource locked"}`; first persist, returning its
error at once on failure; run the task on the snapshot; on task error force
the snapshot to `Error`/error text and upsert it; re-read the live condition
(`FindType`, nil-dereferenced unconditionally) and when still `Locked` force
`Error`/`LockNotReleasedErr` and upsert, replacing the returned error; second
persist, whose error wins; else return the accumulated error. -/
def Execute (obj : Conditions) (cond : Condition) (persist1 : Option Err)
    (task : LockTask) (persist2 : Option Err) (now : Nat) : ExecResult :=
  let lockCondition : Condition :=
    { type := cond.type, status := ConditionLocked,
      lastTransitionTime := 0, reason := "Resource locked" }
  let s1 := (SetCondition (some obj) lockCondition now).2.getD obj
  match persist1 with
  | some e => .ok (some e) s1
  | none =>
    let afterTask := task cond s1
    let s2 := afterTask.1
    let taskErr := afterTask.2
    let afterTaskErr :=
      match taskErr with
      | some e =>
        let cond2 := { cond with status := ConditionError, reason := e }
        (cond2, (SetCondition (some s2) cond2 now).2.getD s2)
      | none => (cond, s2)
    let cond2 := afterTaskErr.1
    let s3 := afterTaskErr.2
    match s3.FindType cond.type with
    | none => .nilDeref s3
    | some c =>
      if c.status == ConditionLocked then
        let cond3 := { cond2 with status := ConditionError, reason := LockNotReleasedErr }
        let s4 := (SetCondition (some s3) cond3 now).2.getD s3
        match persist2 with
        | some updateErr => .ok (some updateErr) s4
        | none => .ok (some LockNotReleasedErr) s4
      else
        match persist2 with
        | some updateErr => .ok (some updateErr) s3
        | none => .ok taskErr s3

/-! ## Helper definitions and lemmas -/

/-- The condition type used in concrete scenarios. -/
def bucketT : ConditionType := "Bucket"

/-- A stored condition of type Bucket with status Initialized. -/
def initialBucket : Condition :=
  { type := bucketT, status := ConditionInitialized, lastTransitionTime := 5, reason := "" }

/-- An incoming condition of type Bucket with status Created and reason
"done", carrying no timestamp. -/
def createdBucket : Condition :=
  { type := bucketT, status := ConditionCreated, lastTransitionTime := 0, reason := "done" }

/-- A stored condition of an unrelated type. -/
def otherCondition : Condition :=
  { type := "Other", status := ConditionCompleted, lastTransitionTime := 3, reason := "ok" }

/-- The task error used in concrete scenarios. -/
def diskFullErr : Err := "disk full"

/-- Each condition type occurs at most once in the set. -/
def UniqueTypes (cs : Conditions) : Prop := (cs.map Condition.type).Nodup

/-- `UniqueTypes` lifted to a possibly-nil `*Conditions`. -/
def UniqueTypesOpt (c : Option Conditions) : Prop :=
  match c with
  | none => True
  | some cs => UniqueTypes cs

/-- `FindType` misses exactly when no stored condition carries the type. -/
lemma findType_eq_none_iff (cs : Conditions) (t : ConditionType) :
    cs.FindType t = none ↔ ∀ x ∈ cs, x.type ≠ t := by
  simp [Conditions.FindType, List.find?_eq_none]

/-- The two complementary filters of `RemoveConditionWith` split the length. -/
lemma filter_type_length_split (cs : Conditions) (t : ConditionType) :
    (cs.filter (fun x => x.type == t)).length
      + (cs.filter (fun x => x.type != t)).length = cs.length := by
  induction cs with
  | nil => rfl
  | cons a l ih =>
    simp only [List.filter_cons, bne] at *
    by_cases h : a.type == t <;> simp [h] <;> omega

/-! ## Claims -/

/-- Claim C10 (confirmed).  Upsert on an uninitialized set: `SetCondition`
called through a nil `*Conditions` pointer returns false and leaves the
(absent) state untouched, for every condition and every current time. -/
theorem C10_setCondition_nil_noop (c : Condition) (now : Nat) :
    SetCondition none c now = (false, none) := rfl

/-- Claim C1 (code_bug).  The round-trip property fails on the code: with a
stored Bucket condition whose status is Initialized, upserting a Bucket
condition with status Created and reason "done" leaves the live set
untouched, because `SetCondition` writes through the deep copy returned by
`FindType`; `FindType` afterwards still yields the old status and reason,
which differ from the upserted ones. -/
theorem C1_roundtrip_fails_on_existing_entry :
    ((SetCondition (some [initialBucket]) createdBucket 7).2.getD []).FindType
        createdBucket.type = some initialBucket ∧
    initialBucket.status ≠ createdBucket.status ∧
    initialBucket.reason ≠ createdBucket.reason := by decide

/-- Claim C2 (code_bug).  Upsert on an existing entry: the call reports
`changed = true` (the status comparison differs) but the live set is
returned exactly as it was — status, reason and `LastTransitionTime` of the
stored entry are all untouched, because the updates land in the deep copy
returned by `FindType`. -/
theorem C2_update_branch_mutates_dead_copy :
    SetCondition (some [initialBucket]) createdBucket 7 =
      (true, some [initialBucket]) := by decide

/-- Claim C3 (code_bug).  Task failure inside the advisory lock, on the code
as written: starting from an empty set, a task that returns the error
"disk full" (both persistence calls succeeding) makes `Execute` return
`LockNotReleasedErr` — not the task's error — and leaves the live Bucket
condition with status Locked and reason "Resource locked", not status Error
with reason "disk full": the forced Error upsert lands in the dead deep
copy, so the post-task re-read still sees Locked. -/
theorem C3_task_error_not_recorded :
    Execute [] (NewLockCondition [] bucketT) none
        (fun _ s => (s, some diskFullErr)) none 7 =
      .ok (some LockNotReleasedErr)
        [{ type := bucketT, status := ConditionLocked,
           lastTransitionTime := 7, reason := "Resource locked" }] ∧
    LockNotReleasedErr ≠ diskFullErr ∧
    ConditionLocked ≠ ConditionError := by decide

/-- Claim C4 (code_bug).  Unreleased lock, on the code as written: starting
from an empty set, a task that returns nil and leaves the live Bucket
condition Locked makes `Execute` return `LockNotReleasedErr` (that half of
the claim holds), but the live condition afterwards still has status Locked
and reason "Resource locked" rather than the claimed status Error: the
forced Error upsert lands in the dead deep copy returned by `FindType`. -/
theorem C4_unreleased_lock_not_recorded :
    Execute [] (NewLockCondition [] bucketT) none
        (fun _ s => (s, none)) none 7 =
      .ok (some LockNotReleasedErr)
        [{ type := bucketT, status := ConditionLocked,
           lastTransitionTime := 7, reason := "Resource locked" }] ∧
    ConditionLocked ≠ ConditionError := by decide

/-- Claim C5 (confirmed).  When the first persistence call fails with `e`,
`Execute` returns exactly `e` and stops right after the in-memory Locked
upsert; the result is the same whatever task is supplied, so the task is
never invoked. -/
theorem C5_first_persist_failure_aborts (obj : Conditions) (ct : ConditionType)
    (e : Err) (task task2 : LockTask) (persist2 : Option Err) (now : Nat) :
    Execute obj (NewLockCondition obj ct) (some e) task persist2 now =
      .ok (some e)
        ((SetCondition (some obj)
          { type := (NewLockCondition obj ct).type, status := ConditionLocked,
            lastTransitionTime := 0, reason := "Resource locked" } now).2.getD obj) ∧
    Execute obj (NewLockCondition obj ct) (some e) task persist2 now =
      Execute obj (NewLockCondition obj ct) (some e) task2 persist2 now :=
  ⟨rfl, rfl⟩

/-- The in-memory set right after `Execute`'s step-1 Locked upsert. -/
def ExecuteStep1 (obj : Conditions) (ct : ConditionType) (now : Nat) : Conditions :=
  (SetCondition (some obj)
    { type := ct, status := ConditionLocked,
      lastTransitionTime := 0, reason := "Resource locked" } now).2.getD obj

/-- A task that deletes the lock's Bucket condition and reports success. -/
def removeBucketTask : LockTask :=
  fun _ s => ((RemoveConditionWith (some s) bucketT).2.getD s, none)

/-- Claim C6 (confirmed).  When the first persistence call succeeds, the task
returns nil, and the post-task live set holds no condition of the lock's
type (for instance because the task removed it with `RemoveConditionWith`),
`Execute` reaches the post-task check with a nil `FindType` result and
dereferences it: the call ends in a nil-pointer panic instead of returning
an error. -/
theorem C6_missing_type_nil_deref (obj : Conditions) (cond : Condition)
    (task : LockTask) (persist2 : Option Err) (now : Nat)
    (h1 : (task cond (ExecuteStep1 obj cond.type now)).2 = none)
    (h2 : (task cond (ExecuteStep1 obj cond.type now)).1.FindType cond.type = none) :
    Execute obj cond none task persist2 now =
      .nilDeref (task cond (ExecuteStep1 obj cond.type now)).1 := by
  simp only [Execute, ExecuteStep1] at *
  rw [h1]
  simp only [h2]

/-- Witness for C6: a lock on type Bucket over an empty set whose task
removes the Bucket condition and returns nil makes `Execute` end in the
nil-pointer dereference. -/
theorem C6_witness :
    (removeBucketTask (NewLockCondition [] bucketT)
        (ExecuteStep1 [] bucketT 7)).1.FindType bucketT = none ∧
    Execute [] (NewLockCondition [] bucketT) none removeBucketTask none 7 =
      .nilDeref [] := by
  constructor
  · decide
  · have h := C6_missing_type_nil_deref [] (NewLockCondition [] bucketT)
      removeBucketTask none 7 (by decide) (by decide)
    rw [h]
    decide

/-- Claim C7 (confirmed).  Uniqueness invariant: starting from any state
(nil pointer included) in which each condition type occurs at most once,
one call of `SetCondition` and one call of `RemoveConditionWith` each leave
a state in which every condition type still occurs at most once. -/
theorem C7_type_uniqueness_preserved (c : Option Conditions) (newCondition : Condition)
    (t : ConditionType) (now : Nat) (h : UniqueTypesOpt c) :
    UniqueTypesOpt (SetCondition c newCondition now).2 ∧
    UniqueTypesOpt (RemoveConditionWith c t).2 := by
  constructor
  · match c with
    | none => trivial
    | some cs =>
      simp only [UniqueTypesOpt, UniqueTypes] at h ⊢
      cases hf : cs.FindType newCondition.type with
      | some ex => simp only [SetCondition, hf]; exact h
      | none =>
        have hall : ∀ x ∈ cs, x.type ≠ newCondition.type := (findType_eq_none_iff cs _).mp hf
        have hmem : newCondition.type ∉ cs.map Condition.type := by
          intro hc
          obtain ⟨x, hx, hxt⟩ := List.mem_map.mp hc
          exact hall x hx hxt
        simp only [SetCondition, hf]
        by_cases hz : newCondition.lastTransitionTime == 0 <;>
          simp [hz, List.nodup_append, h, hmem]
  · match c with
    | none => trivial
    | some cs =>
      simp only [UniqueTypesOpt, UniqueTypes] at h ⊢
      by_cases hlen : cs.length = 0
      · simp only [RemoveConditionWith, hlen]
        simpa using h
      · simp only [RemoveConditionWith]
        have hguard : (cs.length == 0) = false := by
          simp [hlen]
        simp only [hguard, Bool.false_eq_true, if_false]
        exact h.sublist ((cs.filter_sublist).map Condition.type)

/-- Witness for C7: a two-entry set with distinct types keeps its types
unique after an upsert and after a removal. -/
theorem C7_witness :
    UniqueTypesOpt (some [initialBucket, otherCondition]) ∧
    UniqueTypesOpt (SetCondition (some [initialBucket, otherCondition]) createdBucket 7).2 ∧
    UniqueTypesOpt (RemoveConditionWith (some [initialBucket, otherCondition]) bucketT).2 := by
  have h0 : UniqueTypesOpt (some [initialBucket, otherCondition]) := by
    show (([initialBucket, otherCondition] : Conditions).map Condition.type).Nodup
    decide
  have h := C7_type_uniqueness_preserved (some [initialBucket, otherCondition])
    createdBucket bucketT 7 h0
  exact ⟨h0, h.1, h.2⟩

/-- Claim C8 (confirmed).  Idempotence of `SetCondition` on status+reason:
on a set not yet containing the condition's type, the first call reports
`changed = true`; a second call with the identical condition reports
`changed = false` and returns the set — in particular the stored entry's
`LastTransitionTime` — exactly as the first call left it. -/
theorem C8_setCondition_idempotent (cs : Conditions) (c : Condition) (now1 now2 : Nat)
    (h : cs.FindType c.type = none) :
    (SetCondition (some cs) c now1).1 = true ∧
    (SetCondition (SetCondition (some cs) c now1).2 c now2).1 = false ∧
    (SetCondition (SetCondition (some cs) c now1).2 c now2).2 =
      (SetCondition (some cs) c now1).2 := by
  have hfirst : SetCondition (some cs) c now1 =
      (true, some (cs ++ [if c.lastTransitionTime == 0 then
        { c with lastTransitionTime := now1 } else c])) := by
    simp only [SetCondition, h]
  set a := (if c.lastTransitionTime == 0 then
    { c with lastTransitionTime := now1 } else c) with ha
  have hat : a.type = c.type ∧ a.status = c.status ∧ a.reason = c.reason := by
    rw [ha]; split <;> simp
  have hfind : (cs ++ [a]).FindType c.type = some a := by
    have hn : cs.find? (fun cond => cond.type == c.type) = none := h
    simp [Conditions.FindType, List.find?_append, hn, List.find?_cons, hat.1]
  have hsecond : SetCondition (some (cs ++ [a])) c now2 = (false, some (cs ++ [a])) := by
    simp only [SetCondition, hfind]
    simp [hat.2.1, hat.2.2]
  rw [hfirst]
  simp [hsecond]

/-- Witness for C8: upserting the Created Bucket condition twice into a set
that held only an unrelated type reports true then false and leaves the set
of the first call intact. -/
theorem C8_witness :
    Conditions.FindType [otherCondition] createdBucket.type = none ∧
    (SetCondition (some [otherCondition]) createdBucket 7).1 = true ∧
    (SetCondition (SetCondition (some [otherCondition]) createdBucket 7).2
        createdBucket 9).1 = false ∧
    (SetCondition (SetCondition (some [otherCondition]) createdBucket 7).2
        createdBucket 9).2 = (SetCondition (some [otherCondition]) createdBucket 7).2 := by
  have h := C8_setCondition_idempotent [otherCondition] createdBucket 7 9 (by decide)
  exact ⟨by decide, h.1, h.2.1, h.2.2⟩

/-- Claim C9 (confirmed).  Removal semantics: when the set holds exactly one
entry of the type, `RemoveConditionWith` returns true and the order-
preserving filter of the others, whose length is the original length minus
one; when the type is absent it returns false and the set unchanged; and on
the nil pointer it returns false with no effect. -/
theorem C9_removal_semantics (cs : Conditions) (t : ConditionType) :
    ((cs.filter (fun x => x.type == t)).length = 1 →
      RemoveConditionWith (some cs) t =
        (true, some (cs.filter (fun x => x.type != t))) ∧
      (cs.filter (fun x => x.type != t)).length + 1 = cs.length ∧
      (cs.filter (fun x => x.type != t)).Sublist cs) ∧
    (cs.FindType t = none →
      RemoveConditionWith (some cs) t = (false, some cs)) ∧
    RemoveConditionWith none t = (false, none) := by
  refine ⟨?_, ?_, rfl⟩
  · intro hone
    have hsplit := filter_type_length_split cs t
    have hlen : (cs.filter (fun x => x.type != t)).length + 1 = cs.length := by omega
    have hne : cs.length ≠ 0 := by omega
    have hguard : (cs.length == 0) = false := by simp [hne]
    refine ⟨?_, hlen, cs.filter_sublist⟩
    simp only [RemoveConditionWith, hguard, Bool.false_eq_true, if_false]
    have hd : cs.length ≠ (cs.filter (fun x => x.type != t)).length := by omega
    simp [hd]
  · intro habs
    have hall : ∀ x ∈ cs, x.type ≠ t := (findType_eq_none_iff cs t).mp habs
    have hfilter : cs.filter (fun x => x.type != t) = cs := by
      apply List.filter_eq_self.mpr
      intro x hx
      simp [bne, hall x hx]
    by_cases hlen : cs.length = 0
    · have hguard : (cs.length == 0) = true := by simp [hlen]
      simp [RemoveConditionWith, hguard]
    · have hguard : (cs.length == 0) = false := by simp [hlen]
      simp [RemoveConditionWith, hguard, hfilter]

/-- Witness for C9: removing Bucket from a two-entry set leaves the other
entry and reports true; removing it again from the remainder reports false
and changes nothing. -/
theorem C9_witness :
    (([initialBucket, otherCondition] : Conditions).filter
        (fun x => x.type == bucketT)).length = 1 ∧
    RemoveConditionWith (some [initialBucket, otherCondition]) bucketT =
      (true, some [otherCondition]) ∧
    Conditions.FindType [otherCondition] bucketT = none ∧
    RemoveConditionWith (some [otherCondition]) bucketT = (false, some [otherCondition]) := by
  have h1 := (C9_removal_semantics [initialBucket, otherCondition] bucketT).1 (by decide)
  have h2 := (C9_removal_semantics [otherCondition] bucketT).2.1 (by decide)
  refine ⟨by decide, ?_, by decide, h2⟩
  rw [h1.1]
  decide
